import Mathlib

/-!
# Verification of the express-jobly dynamic query composition engine

Shallow embedding of the SQL-composition code of the repository:

* `sqlForPartialUpdate` (helpers/sql.js): builds a SET clause plus value
  array from a partial-update record and a field-name map.
* the filter-composition blocks of `Job.findAll` and `Company.findAll`
  (models/job.js, models/company.js): build a WHERE clause plus value
  array from a loose filter record.
* the query-construction parts of `User.update`, `Job.update`,
  `Company.update`: compose the UPDATE statement and the argument array
  handed to the parameterized execution call.

JavaScript objects are embedded as insertion-ordered association lists
(`Record`, `FieldMap`): `Object.keys` / `Object.values` become
`List.map Prod.fst` / `List.map Prod.snd` on the same list, which keeps
the key/value order correspondence of a JS object.  (Integer-like JS
keys, which JS iterates first, do not occur for these field names and
are out of scope.)  Values are embedded as the scalar type `Val`;
thrown errors become `Except` results.
-/

/-- A JS scalar value as it flows through the composers: the composers
never inspect update values, so strings, numbers, booleans and `null`
are carried opaquely. -/
inductive Val where
  | vStr (s : String)
  | vNum (n : Int)
  | vBool (b : Bool)
  | vNull
  deriving DecidableEq, Repr

/-- A JS object used as an ordered record of fields to update:
insertion-ordered association list with unique keys by construction of
the JS object literal. -/
abbrev Record := List (String × Val)

/-- A JS object mapping external field names to column identifiers
(the `jsToSql` argument). -/
abbrev FieldMap := List (String × String)

/-- The two error classes thrown by the modelled code
(`BadRequestError`, `NotFoundError` from expressError.js). -/
inductive SqlError where
  | badRequest (msg : String)
  | notFound (msg : String)
  deriving DecidableEq, Repr

/-- Embeds the JS expression `jsToSql[colName] || colName`: property
lookup yields `undefined` (here `none`) on a missing key, and `||`
falls back on any falsy value — for string-valued maps the only falsy
string is `""`. -/
def jsOrFallback (jsToSql : FieldMap) (colName : String) : String :=
  match jsToSql.lookup colName with
  | some c => if c = "" then colName else c
  | none => colName

/-- One assignment fragment of the SET clause: the JS template
  `` `"${jsToSql[colName] || colName}"=$${idx + 1}` ``. -/
def updFragment (jsToSql : FieldMap) (idx : Nat) (colName : String) : String :=
  "\"" ++ jsOrFallback jsToSql colName ++ "\"=$" ++ Nat.repr (idx + 1)

/-- The JS array `cols = keys.map((colName, idx) => ...)` of
`sqlForPartialUpdate`. -/
def updCols (dataToUpdate : Record) (jsToSql : FieldMap) : List String :=
  (dataToUpdate.map Prod.fst).enum.map fun p => updFragment jsToSql p.1 p.2

/-- The result object `{ setCols, values }` of `sqlForPartialUpdate`. -/
structure SetClause where
  setCols : String
  values : List Val
  deriving DecidableEq, Repr

/-- Embeds `sqlForPartialUpdate(dataToUpdate, jsToSql)` from
helpers/sql.js: throws `BadRequestError("No data")` on an empty record,
otherwise returns the joined column fragments and `Object.values` of
the record. -/
def sqlForPartialUpdate (dataToUpdate : Record) (jsToSql : FieldMap) :
    Except SqlError SetClause :=
  let keys := dataToUpdate.map Prod.fst
  if keys.length = 0 then .error (.badRequest "No data")
  else
    let cols := updCols dataToUpdate jsToSql
    .ok { setCols := String.intercalate ", " cols
          values := dataToUpdate.map Prod.snd }

-- Sanity examples from helpers/sql tests (scratch, kept as anonymous examples).
example :
    sqlForPartialUpdate
      [("firstName", .vStr "Bob"), ("email", .vStr "new@email.com")]
      [("firstName", "first_name"), ("lastName", "last_name"), ("isAdmin", "is_admin")]
    = .ok { setCols := "\"first_name\"=$1, \"email\"=$2"
            values := [.vStr "Bob", .vStr "new@email.com"] } := rfl

example :
    sqlForPartialUpdate [("noKey", .vStr "value")]
      [("firstName", "first_name"), ("lastName", "last_name"), ("isAdmin", "is_admin")]
    = .ok { setCols := "\"noKey\"=$1", values := [.vStr "value"] } := rfl

example :
    sqlForPartialUpdate [("firstName", .vNull)] [("firstName", "first_name")]
    = .ok { setCols := "\"first_name\"=$1", values := [.vNull] } := rfl

example :
    sqlForPartialUpdate [] [("numEmployees", "num_employees"), ("logoUrl", "logo_url")]
    = .error (.badRequest "No data") := rfl

/-!
## Filter composition (`Job.findAll`, `Company.findAll`)
-/

/-- Parses the decimal digits of a character list; `none` when the list
is empty or has a non-digit. -/
def digitsToNat : List Char → Option Nat
  | [] => none
  | l => if l.all Char.isDigit then some (l.foldl (fun a c => a * 10 + c.toNat - 48) 0) else none

/-- The ECMAScript StrWhiteSpace characters stripped by string-to-number
conversion: the WhiteSpace set (TAB, VT, FF, SP, NBSP, ZWNBSP and the
Unicode Zs category) and the LineTerminator set (LF, CR, LS, PS). -/
def jsWhitespace (c : Char) : Bool :=
  c.toNat == 9 || c.toNat == 10 || c.toNat == 11 || c.toNat == 12 || c.toNat == 13 ||
  c.toNat == 32 || c.toNat == 0xA0 || c.toNat == 0x1680 ||
  (decide (0x2000 ≤ c.toNat) && decide (c.toNat ≤ 0x200A)) ||
  c.toNat == 0x2028 || c.toNat == 0x2029 || c.toNat == 0x202F || c.toNat == 0x205F ||
  c.toNat == 0x3000 || c.toNat == 0xFEFF

/-- Strips leading and trailing JS whitespace, as string-to-number
conversion does before matching the numeric grammar. -/
def trimJs (l : List Char) : List Char :=
  ((l.dropWhile jsWhitespace).reverse.dropWhile jsWhitespace).reverse

/-- The value of the unsigned decimal digit run `l` (all digits). -/
def natOfDigits (l : List Char) : Nat :=
  l.foldl (fun a c => a * 10 + (c.toNat - 48)) 0

/-- Value of one digit of a base-`b` integer literal (`b` ∈ 2, 8, 16),
`none` for a character outside the base's digit set. -/
def baseDigitVal (b : Nat) (c : Char) : Option Nat :=
  let v : Option Nat :=
    if decide (48 ≤ c.toNat) && decide (c.toNat ≤ 57) then some (c.toNat - 48)
    else if decide (97 ≤ c.toNat) && decide (c.toNat ≤ 102) then some (c.toNat - 87)
    else if decide (65 ≤ c.toNat) && decide (c.toNat ≤ 70) then some (c.toNat - 55)
    else none
  v.bind fun n => if n < b then some n else none

/-- The value of a non-empty base-`b` digit run, `none` when empty or
when any character is not a digit of that base. -/
def baseDigitsToNat (b : Nat) : List Char → Option Nat
  | [] => none
  | l => l.foldl (fun acc c => acc.bind fun a => (baseDigitVal b c).map fun n => a * b + n)
      (some 0)

/-- The digits of an ExponentPart after the `e`/`E`, with optional
sign; the digit run must be non-empty. -/
def parseExpDigits : List Char → Option Int
  | '+' :: rest => (digitsToNat rest).map fun n => (n : Int)
  | '-' :: rest => (digitsToNat rest).map fun n => -(n : Int)
  | rest => (digitsToNat rest).map fun n => (n : Int)

/-- Parses an optional ExponentPart closing a decimal literal: the
empty rest means exponent 0, `e`/`E` starts an exponent, and any other
trailing character makes the whole literal invalid (NaN). -/
def parseExpOpt : List Char → Option Int
  | [] => some 0
  | 'e' :: rest => parseExpDigits rest
  | 'E' :: rest => parseExpDigits rest
  | _ => none

/-- Parses a StrUnsignedDecimalLiteral (other than `Infinity`):
`Digits [. Digits?] Exp?` or `. Digits Exp?`, returned as a mantissa
and a power-of-ten exponent so that the exact value is
`mantissa * 10 ^ exponent`. -/
def parseUnsignedDec (l : List Char) : Option (Nat × Int) :=
  let d1 := l.takeWhile Char.isDigit
  let r1 := l.dropWhile Char.isDigit
  match r1 with
  | '.' :: r2 =>
      let d2 := r2.takeWhile Char.isDigit
      let r3 := r2.dropWhile Char.isDigit
      if d1.isEmpty && d2.isEmpty then none
      else (parseExpOpt r3).map fun e => (natOfDigits (d1 ++ d2), e - (d2.length : Int))
  | _ =>
      if d1.isEmpty then none
      else (parseExpOpt r1).map fun e => (natOfDigits d1, e)

/-- Bit length of `n` (0 for 0), by structural recursion on a fuel
argument (`n` itself bounds the recursion depth). -/
def blenAux : Nat → Nat → Nat
  | 0, _ => 0
  | fuel + 1, n => if n = 0 then 0 else blenAux fuel (n / 2) + 1

/-- Bit length: `2 ^ (blen n - 1) ≤ n < 2 ^ blen n` for `n ≥ 1`. -/
def blen (n : Nat) : Nat := blenAux n n

/-- Whether `2 ^ k ≤ N / D` exactly, by clearing denominators. -/
def ratLe2pow (k : Int) (N D : Nat) : Bool :=
  if 0 ≤ k then decide (D * 2 ^ k.toNat ≤ N) else decide (D ≤ N * 2 ^ (-k).toNat)

/-- `⌊log₂ (N / D)⌋` for `N, D ≥ 1`: the bit-length estimate is off by
at most one, so test the two candidates exactly. -/
def floorLog2Rat (N D : Nat) : Int :=
  let k0 : Int := (blen N : Int) - (blen D : Int)
  if ratLe2pow (k0 + 1) N D then k0 + 1
  else if ratLe2pow k0 N D then k0
  else k0 - 1

/-- Rounds the positive rational `N / D` (`N, D ≥ 1`) to the nearest
IEEE 754 binary64 value, ties to even: the result `(m, e)` denotes the
double `m * 2 ^ e` (subnormals via the clamped exponent −1074), and
`none` is overflow to infinity — `m * 2 ^ e ≥ 2 ^ 1024`, stated for
`e ≥ 0` as `blen m + e ≥ 1025` (a rounded value below `2 ^ 1024` never
has a negative-exponent overflow). -/
def roundDouble (N D : Nat) : Option (Nat × Int) :=
  let e2 : Int := max (floorLog2Rat N D - 52) (-1074)
  let p : Nat × Nat := if 0 ≤ e2 then (N, D * 2 ^ e2.toNat) else (N * 2 ^ (-e2).toNat, D)
  let q := p.1 / p.2
  let r := p.1 % p.2
  let m : Nat :=
    if 2 * r < p.2 then q
    else if p.2 < 2 * r then q + 1
    else if q % 2 = 0 then q else q + 1
  if 0 ≤ e2 ∧ 1025 ≤ (blen m : Int) + e2 then none else some (m, e2)

/-- `Number.isInteger` of the double `m * 2 ^ e` with sign `sgn`
applied: its exact integer value when it has one, else `none`. -/
def doubleToInt (m : Nat) (e : Int) (sgn : Int) : Option Int :=
  if 0 ≤ e then some (sgn * (m * 2 ^ e.toNat : Nat))
  else if m % 2 ^ (-e).toNat = 0 then some (sgn * (m / 2 ^ (-e).toNat : Nat))
  else none

/-- `Number.isInteger` of the double nearest to `sgn * N / D`, with
its value: `none` for overflow to infinity or a fractional double. -/
def jsToIntegerCore (sgn : Int) (N D : Nat) : Option Int :=
  if N = 0 then some 0
  else
    match roundDouble N D with
    | some p => doubleToInt p.1 p.2 sgn
    | none => none

/-- `Number.isInteger(+s)` for a parsed decimal literal
`sgn * mant * 10 ^ exp`. -/
def decToInteger (sgn : Int) (mant : Nat) (exp : Int) : Option Int :=
  if 0 ≤ exp then jsToIntegerCore sgn (mant * 10 ^ exp.toNat) 1
  else jsToIntegerCore sgn mant (10 ^ (-exp).toNat)

/-- A signed StrDecimalLiteral body: the literal `Infinity` is not a
finite integer; anything else must parse as an unsigned decimal. -/
def signedDec (sgn : Int) (l : List Char) : Option Int :=
  if l = "Infinity".data then none
  else (parseUnsignedDec l).bind fun p => decToInteger sgn p.1 p.2

/-- Embeds the guard `Number.isInteger(+data.x)` of the filter blocks
together with the bound value `+data.x`: the ES string-to-number
conversion (whitespace trimming, empty string ⇒ 0, signed decimal
literals with optional fraction and exponent, `0x`/`0o`/`0b` integer
literals, `Infinity`; anything else NaN) followed by exact rounding to
the nearest binary64 double (ties to even, overflow to infinity), and
`some n` exactly when that double is the finite integer `n`. -/
def jsToInteger (s : String) : Option Int :=
  match trimJs s.data with
  | [] => some 0
  | '0' :: 'x' :: rest => (baseDigitsToNat 16 rest).bind fun n => jsToIntegerCore 1 n 1
  | '0' :: 'X' :: rest => (baseDigitsToNat 16 rest).bind fun n => jsToIntegerCore 1 n 1
  | '0' :: 'o' :: rest => (baseDigitsToNat 8 rest).bind fun n => jsToIntegerCore 1 n 1
  | '0' :: 'O' :: rest => (baseDigitsToNat 8 rest).bind fun n => jsToIntegerCore 1 n 1
  | '0' :: 'b' :: rest => (baseDigitsToNat 2 rest).bind fun n => jsToIntegerCore 1 n 1
  | '0' :: 'B' :: rest => (baseDigitsToNat 2 rest).bind fun n => jsToIntegerCore 1 n 1
  | '+' :: rest => signedDec 1 rest
  | '-' :: rest => signedDec (-1) rest
  | rest => signedDec 1 rest

-- Fidelity checks of the `Number.isInteger(+s)` model at the numeric
-- boundary: integral doubles from fraction, exponent, hex, whitespace
-- and beyond-2^53 rounding are accepted; fractional values, NaN
-- strings and infinities are not.
example : jsToInteger "1" = some 1 := by decide
example : jsToInteger "nope" = none := by decide
example : jsToInteger "1.0" = some 1 := by decide
example : jsToInteger "1.5" = none := by decide
example : jsToInteger " " = some 0 := by decide
example : jsToInteger "" = some 0 := by decide
example : jsToInteger "1e3" = some 1000 := by decide
example : jsToInteger "1.e3" = some 1000 := by decide
example : jsToInteger "12.5e-1" = none := by decide
example : jsToInteger "0x10" = some 16 := by decide
example : jsToInteger "0b101" = some 5 := by decide
example : jsToInteger "0o17" = some 15 := by decide
example : jsToInteger " 42 " = some 42 := by decide
example : jsToInteger "-12" = some (-12) := by decide
example : jsToInteger "+7" = some 7 := by decide
example : jsToInteger "Infinity" = none := by decide
example : jsToInteger "-Infinity" = none := by decide
example : jsToInteger "1x" = none := by decide
example : jsToInteger "." = none := by decide
example : jsToInteger "9007199254740993" = some 9007199254740992 := by decide
example : jsToInteger "1.00000000000000001" = some 1 := by decide

/-- The pair of parallel arrays (`queryStringArr`, `validValues`) the
filter blocks accumulate by `push`. -/
structure WhereBuild where
  queryStringArr : List String
  validValues : List Val
  deriving DecidableEq, Repr

/-- The JS push pattern of every filter branch:
`validValues.push(v); queryStringArr.push(`<pre>$${validValues.length} `)`
— the value first, then the fragment using the new length. -/
def pushPred (b : WhereBuild) (pre : String) (v : Val) : WhereBuild :=
  let vv := b.validValues ++ [v]
  { queryStringArr := b.queryStringArr ++ [pre ++ "$" ++ Nat.repr vv.length ++ " "]
    validValues := vv }

/-- `if(data.title) { ... push ... }` of `Job.findAll`: JS truthiness of
a possibly-absent string is "present and non-empty". -/
def stepTitle (title : Option String) (b : WhereBuild) : WhereBuild :=
  match title with
  | some s => if s = "" then b else pushPred b "title ILIKE " (.vStr ("%" ++ s ++ "%"))
  | none => b

/-- `if(data.minSalary && Number.isInteger(+data.minSalary)) { ... }` of
`Job.findAll`. -/
def stepMinSalary (minSalary : Option String) (b : WhereBuild) : WhereBuild :=
  match minSalary with
  | some s =>
      if s = "" then b
      else
        match jsToInteger s with
        | some n => pushPred b "salary >= " (.vNum n)
        | none => b
  | none => b

/-- `if(data.hasEquity === 'true') { ... }` of `Job.findAll`: strict
string equality with the literal `'true'`. -/
def stepHasEquity (hasEquity : Option String) (b : WhereBuild) : WhereBuild :=
  if hasEquity = some "true" then pushPred b "equity >= " (.vNum 0) else b

/-- The filter record `Job.findAll` reads (each entry absent or a raw
query-string value). -/
structure JobFilter where
  title : Option String
  minSalary : Option String
  hasEquity : Option String
  deriving DecidableEq, Repr

/-- The filter-composition block of `Job.findAll` (the three `if`
statements, in source order, starting from two empty arrays). -/
def jobFilterBuild (data : JobFilter) : WhereBuild :=
  stepHasEquity data.hasEquity (stepMinSalary data.minSalary (stepTitle data.title ⟨[], []⟩))

/-- `queryStringArr.join("AND ")` for the job filters. -/
def jobJoined (data : JobFilter) : String :=
  String.intercalate "AND " (jobFilterBuild data).queryStringArr

/-- The `queryString` of `Job.findAll`:
`validValues.length > 0 ? "WHERE " + queryStringArr.join("AND ") + " ORDER BY title" : " ORDER BY title"`. -/
def jobQueryString (data : JobFilter) : String :=
  if (jobFilterBuild data).validValues.length > 0 then
    "WHERE " ++ jobJoined data ++ " ORDER BY title"
  else " ORDER BY title"

/-- `if(data.name) { ... }` of `Company.findAll`. -/
def stepName (name : Option String) (b : WhereBuild) : WhereBuild :=
  match name with
  | some s => if s = "" then b else pushPred b "name ILIKE " (.vStr ("%" ++ s ++ "%"))
  | none => b

/-- `if(data.minEmployees && Number.isInteger(+data.minEmployees)) { ... }`
of `Company.findAll`. -/
def stepMinEmployees (minEmployees : Option String) (b : WhereBuild) : WhereBuild :=
  match minEmployees with
  | some s =>
      if s = "" then b
      else
        match jsToInteger s with
        | some n => pushPred b "num_employees >= " (.vNum n)
        | none => b
  | none => b

/-- `if(data.maxEmployees && Number.isInteger(+data.maxEmployees)) { ... }`
of `Company.findAll`. -/
def stepMaxEmployees (maxEmployees : Option String) (b : WhereBuild) : WhereBuild :=
  match maxEmployees with
  | some s =>
      if s = "" then b
      else
        match jsToInteger s with
        | some n => pushPred b "num_employees <= " (.vNum n)
        | none => b
  | none => b

/-- The filter record `Company.findAll` reads. -/
structure CompanyFilter where
  name : Option String
  minEmployees : Option String
  maxEmployees : Option String
  deriving DecidableEq, Repr

/-- The filter-composition block of `Company.findAll` (the three `if`
statements, in source order). -/
def companyFilterBuild (data : CompanyFilter) : WhereBuild :=
  stepMaxEmployees data.maxEmployees
    (stepMinEmployees data.minEmployees (stepName data.name ⟨[], []⟩))

-- Sanity examples against the comments and tests in models/job.js.
example :
    jobFilterBuild ⟨some "job1", some "1", none⟩
    = ⟨["title ILIKE $1 ", "salary >= $2 "], [.vStr "%job1%", .vNum 1]⟩ := by decide

example : jobJoined ⟨some "job1", some "1", none⟩ = "title ILIKE $1 AND salary >= $2 " := by decide

example : jobFilterBuild ⟨none, some "nope", none⟩ = ⟨[], []⟩ := by decide

example : jobFilterBuild ⟨none, none, some "true"⟩ = ⟨["equity >= $1 "], [.vNum 0]⟩ := by decide

example : jobFilterBuild ⟨none, none, some "false"⟩ = ⟨[], []⟩ := by decide

example :
    companyFilterBuild ⟨some "name", some "10", some "pdfojs"⟩
    = ⟨["name ILIKE $1 ", "num_employees >= $2 "], [.vStr "%name%", .vNum 10]⟩ := by decide

/-!
## `Job.findAll` and the update operations

The database is abstracted as a function from (query text, parameter
array) to the row list it returns; the `async` round trip of `db.query`
is collapsed into that application.
-/

/-- A row returned by the database. -/
abbrev Row := List (String × Val)

/-- A database: query text and parameter array in, rows out. -/
abbrev Db := String → List Val → List Row

/-- The `baseQuery` template literal of `Job.findAll`. -/
def jobBaseQuery : String :=
  "SELECT id,\n                        title,\n                        salary,\n                        equity,\n                        company_handle AS \"companyHandle\"\n                      FROM jobs "

/-- Embeds `Job.findAll(data)` from models/job.js: with no filter
argument (`!data`) it returns the rows of the unfiltered query
unconditionally; with a filter object it composes the WHERE clause,
runs the query with `validValues`, and throws `NotFoundError` when zero
rows come back (the JS message stringifies the filter object as
`[object Object]`). -/
def Job.findAll (db : Db) (data : Option JobFilter) : Except SqlError (List Row) :=
  match data with
  | none => .ok (db (jobBaseQuery ++ "ORDER BY title") [])
  | some d =>
      let results := db (jobBaseQuery ++ jobQueryString d) (jobFilterBuild d).validValues
      if results.length = 0 then
        .error (.notFound "No jobs found matching [object Object]")
      else .ok results

/-- The `jsToSql` map `User.update` passes to `sqlForPartialUpdate`. -/
def userJsToSql : FieldMap :=
  [("firstName", "first_name"), ("lastName", "last_name"), ("isAdmin", "is_admin")]

/-- The `jsToSql` map `Job.update` passes to `sqlForPartialUpdate`. -/
def jobJsToSql : FieldMap := [("numEmployees", "num_employees"), ("logoUrl", "logo_url")]

/-- The `jsToSql` map `Company.update` passes to `sqlForPartialUpdate`. -/
def companyJsToSql : FieldMap := [("numEmployees", "num_employees"), ("logoUrl", "logo_url")]

/-- The query-construction part of `User.update(username, data)`
(models/user.js lines 216–233, after the password hash step): composes
`querySql` with `usernameVarIdx = "$" + (values.length + 1)` and hands
`[...values, username]` to `db.query`. -/
def User.updateQuery (username : String) (data : Record) :
    Except SqlError (String × List Val) := do
  let sc ← sqlForPartialUpdate data userJsToSql
  let usernameVarIdx := "$" ++ Nat.repr (sc.values.length + 1)
  let querySql :=
    "UPDATE users \n                      SET " ++ sc.setCols ++
    " \n                      WHERE username = " ++ usernameVarIdx ++
    " \n                      RETURNING username,\n                                first_name AS \"firstName\",\n                                last_name AS \"lastName\",\n                                email,\n                                is_admin AS \"isAdmin\""
  return (querySql, sc.values ++ [Val.vStr username])

/-- The query-construction part of `Job.update(id, data)` (models/job.js):
`idVarIdx = "$" + (values.length + 1)`, arguments `[...values, id]`. -/
def Job.updateQuery (id : Int) (data : Record) :
    Except SqlError (String × List Val) := do
  let sc ← sqlForPartialUpdate data jobJsToSql
  let idVarIdx := "$" ++ Nat.repr (sc.values.length + 1)
  let querySql :=
    "UPDATE jobs \n                      SET " ++ sc.setCols ++
    " \n                      WHERE id = " ++ idVarIdx ++
    " \n                      RETURNING id,\n                                title, \n                                salary, \n                                equity, \n                                company_handle AS \"companyHandle\""
  return (querySql, sc.values ++ [Val.vNum id])

/-- The query-construction part of `Company.update(handle, data)`
(models/company.js): `handleVarIdx = "$" + (values.length + 1)`,
arguments `[...values, handle]`. -/
def Company.updateQuery (handle : String) (data : Record) :
    Except SqlError (String × List Val) := do
  let sc ← sqlForPartialUpdate data companyJsToSql
  let handleVarIdx := "$" ++ Nat.repr (sc.values.length + 1)
  let querySql :=
    "UPDATE companies \n                      SET " ++ sc.setCols ++
    " \n                      WHERE handle = " ++ handleVarIdx ++
    " \n                      RETURNING handle, \n                                name, \n                                description, \n                                num_employees AS \"numEmployees\", \n                                logo_url AS \"logoUrl\""
  return (querySql, sc.values ++ [Val.vStr handle])

-- Sanity examples for the update composers and findAll control flow.
example :
    (User.updateQuery "u1" [("firstName", .vStr "Bob")]).map Prod.snd
    = .ok [.vStr "Bob", .vStr "u1"] := rfl

example :
    Job.findAll (fun _ _ => []) none = .ok [] := rfl

example :
    Job.findAll (fun _ _ => []) (some ⟨none, some "nope", none⟩)
    = .error (.notFound "No jobs found matching [object Object]") := rfl

/-!
## Helper lemmas about `sqlForPartialUpdate`
-/

theorem sqlForPartialUpdate_ok (d : Record) (m : FieldMap) (h : d ≠ []) :
    sqlForPartialUpdate d m
      = .ok { setCols := String.intercalate ", " (updCols d m), values := d.map Prod.snd } := by
  simp [sqlForPartialUpdate, List.length_eq_zero, h]

theorem updCols_length (d : Record) (m : FieldMap) : (updCols d m).length = d.length := by
  simp [updCols]

theorem updCols_getElem? (d : Record) (m : FieldMap) (i : Nat) (k : String) (v : Val)
    (h : d[i]? = some (k, v)) :
    (updCols d m)[i]? = some ("\"" ++ jsOrFallback m k ++ "\"=$" ++ Nat.repr (i + 1)) := by
  simp [updCols, List.getElem?_map, List.getElem?_enum, h, updFragment]

/-!
## Claims about `sqlForPartialUpdate`
-/

/-- C1: for every non-empty update record, the clause has exactly one
assignment fragment per record field and the value array exactly one
entry per record field; the fragment at position `i` carries
placeholder `$(i+1)` and binds to the value at position `i`, for all
orderings of the record's fields. -/
theorem c1_partialUpdate_shape (d : Record) (m : FieldMap) (h : d ≠ []) :
    ∃ sc, sqlForPartialUpdate d m = .ok sc ∧
      (updCols d m).length = d.length ∧
      sc.values.length = d.length ∧
      sc.setCols = String.intercalate ", " (updCols d m) ∧
      ∀ i k v, d[i]? = some (k, v) →
        (updCols d m)[i]? = some ("\"" ++ jsOrFallback m k ++ "\"=$" ++ Nat.repr (i + 1)) ∧
        sc.values[i]? = some v := by
  refine ⟨_, sqlForPartialUpdate_ok d m h, updCols_length d m, by simp, rfl, ?_⟩
  intro i k v hi
  exact ⟨updCols_getElem? d m i k v hi, by simp [List.getElem?_map, hi]⟩

theorem c1_witness :
    ∃ sc,
      sqlForPartialUpdate
          [("email", .vStr "new@email.com"), ("firstName", .vStr "Bob")]
          [("firstName", "first_name")]
        = .ok sc ∧
      (updCols [("email", Val.vStr "new@email.com"), ("firstName", Val.vStr "Bob")]
          [("firstName", "first_name")]).length = 2 ∧
      sc.values.length = 2 ∧
      sc.setCols = String.intercalate ", "
        (updCols [("email", Val.vStr "new@email.com"), ("firstName", Val.vStr "Bob")]
          [("firstName", "first_name")]) ∧
      ∀ i k v,
        ([("email", Val.vStr "new@email.com"), ("firstName", Val.vStr "Bob")] : Record)[i]?
          = some (k, v) →
        (updCols [("email", Val.vStr "new@email.com"), ("firstName", Val.vStr "Bob")]
            [("firstName", "first_name")])[i]?
          = some ("\"" ++ jsOrFallback [("firstName", "first_name")] k ++ "\"=$" ++ Nat.repr (i + 1)) ∧
        sc.values[i]? = some v :=
  c1_partialUpdate_shape
    [("email", .vStr "new@email.com"), ("firstName", .vStr "Bob")]
    [("firstName", "first_name")] (by decide)

/-- C2: an empty update record fails with `BadRequestError` for every
field-name map, before any clause or value array is produced. -/
theorem c2_emptyUpdate_badRequest (m : FieldMap) :
    sqlForPartialUpdate [] m = .error (.badRequest "No data") := rfl

/-- C9: `null` update values pass through unchanged into the value
array at their positions, and all values transfer with no coercion
(the output value array is exactly the record's value column). -/
theorem c9_null_passthrough (d : Record) (m : FieldMap) (h : d ≠ []) :
    ∃ sc, sqlForPartialUpdate d m = .ok sc ∧
      sc.values = d.map Prod.snd ∧
      ∀ (i : Nat) (k : String), d[i]? = some (k, Val.vNull) → sc.values[i]? = some Val.vNull := by
  refine ⟨_, sqlForPartialUpdate_ok d m h, rfl, ?_⟩
  intro i k hi
  simp [List.getElem?_map, hi]

theorem c9_witness :
    ∃ sc,
      sqlForPartialUpdate [("firstName", .vNull)] [("firstName", "first_name")] = .ok sc ∧
      sc.values = ([("firstName", Val.vNull)] : Record).map Prod.snd ∧
      ∀ (i : Nat) (k : String), ([("firstName", Val.vNull)] : Record)[i]? = some (k, Val.vNull) →
        sc.values[i]? = some Val.vNull :=
  c9_null_passthrough [("firstName", .vNull)] [("firstName", "first_name")] (by decide)

/-- C4 as written is refuted by a field whose map entry is present but
falsy: the JS fallback is `jsToSql[colName] || colName`, so the map
`{a: ""}` carries an entry for `a`, yet the emitted fragment uses the
field name (`"a"=$1`) instead of that entry (`""=$1`). -/
theorem c4_counterexample :
    sqlForPartialUpdate [("a", .vStr "v")] [("a", "")]
      = .ok { setCols := "\"a\"=$1", values := [.vStr "v"] } ∧
    ("\"a\"=$1" : String) ≠ "\"\"=$1" := ⟨rfl, by decide⟩

/-- C4 (amended): `sqlForPartialUpdate` iterates the record in request
order emitting `"<column>"=$<index>` fragments joined with `", "`,
where the column is the map's entry when that entry is present and
non-empty (the `||` lookup falls back on the falsy empty string too),
and otherwise the field name itself; the `{firstName, email}` example
produces exactly the clause and values the claim states. -/
theorem c4_algorithm_amended :
    (∀ (d : Record) (m : FieldMap), d ≠ [] →
      sqlForPartialUpdate d m
        = .ok { setCols := String.intercalate ", " (updCols d m), values := d.map Prod.snd } ∧
      ∀ i k v, d[i]? = some (k, v) →
        (updCols d m)[i]? = some ("\"" ++ jsOrFallback m k ++ "\"=$" ++ Nat.repr (i + 1)))
    ∧ (∀ (m : FieldMap) (k : String), m.lookup k = none → jsOrFallback m k = k)
    ∧ (∀ (m : FieldMap) (k c : String), m.lookup k = some c → c ≠ "" → jsOrFallback m k = c)
    ∧ (∀ (m : FieldMap) (k : String), m.lookup k = some "" → jsOrFallback m k = k)
    ∧ sqlForPartialUpdate
        [("firstName", .vStr "Bob"), ("email", .vStr "new@email.com")]
        [("firstName", "first_name")]
      = .ok { setCols := "\"first_name\"=$1, \"email\"=$2"
              values := [.vStr "Bob", .vStr "new@email.com"] } := by
  refine ⟨?_, ?_, ?_, ?_, rfl⟩
  · intro d m h
    exact ⟨sqlForPartialUpdate_ok d m h, fun i k v hi => updCols_getElem? d m i k v hi⟩
  · intro m k h; simp [jsOrFallback, h]
  · intro m k c h hc; simp [jsOrFallback, h, hc]
  · intro m k h; simp [jsOrFallback, h]

theorem c4_witness :
    (sqlForPartialUpdate [("noKey", .vStr "value")] userJsToSql
        = .ok { setCols := String.intercalate ", " (updCols [("noKey", Val.vStr "value")] userJsToSql)
                values := ([("noKey", Val.vStr "value")] : Record).map Prod.snd }) ∧
    jsOrFallback userJsToSql "noKey" = "noKey" ∧
    jsOrFallback userJsToSql "firstName" = "first_name" ∧
    jsOrFallback [("a", "")] "a" = "a" :=
  ⟨(c4_algorithm_amended.1 [("noKey", .vStr "value")] userJsToSql (by decide)).1,
   c4_algorithm_amended.2.1 userJsToSql "noKey" (by decide),
   c4_algorithm_amended.2.2.1 userJsToSql "firstName" "first_name" (by decide) (by decide),
   c4_algorithm_amended.2.2.2.1 [("a", "")] "a" (by decide)⟩

/-!
## Helper lemmas about the filter steps
-/

/-- JS truthiness of an optional string: present and non-empty. -/
def truthyStr (o : Option String) : Bool :=
  match o with
  | some s => s != ""
  | none => false

/-- Trigger condition of the numeric-threshold branches:
`data.x && Number.isInteger(+data.x)`. -/
def intTrig (o : Option String) : Bool :=
  match o with
  | some s => s != "" && (jsToInteger s).isSome
  | none => false

/-- Trigger condition of the boolean-flag branch:
`data.hasEquity === 'true'`. -/
def equityTrig (o : Option String) : Bool := o == some "true"

theorem stepTitle_arr (t : Option String) (b : WhereBuild) :
    (stepTitle t b).queryStringArr
      = b.queryStringArr ++
        (if truthyStr t then ["title ILIKE " ++ "$" ++ Nat.repr (b.validValues.length + 1) ++ " "]
         else []) := by
  cases t with
  | none => simp [stepTitle, truthyStr]
  | some s =>
      by_cases hs : s = "" <;> simp [stepTitle, truthyStr, pushPred, hs]

theorem stepTitle_len (t : Option String) (b : WhereBuild) :
    (stepTitle t b).validValues.length
      = b.validValues.length + (if truthyStr t then 1 else 0) := by
  cases t with
  | none => simp [stepTitle, truthyStr]
  | some s =>
      by_cases hs : s = "" <;> simp [stepTitle, truthyStr, pushPred, hs]

theorem stepMinSalary_arr (ms : Option String) (b : WhereBuild) :
    (stepMinSalary ms b).queryStringArr
      = b.queryStringArr ++
        (if intTrig ms then ["salary >= " ++ "$" ++ Nat.repr (b.validValues.length + 1) ++ " "]
         else []) := by
  cases ms with
  | none => simp [stepMinSalary, intTrig]
  | some s =>
      by_cases hs : s = ""
      · simp [stepMinSalary, intTrig, hs]
      · cases hj : jsToInteger s <;>
          simp [stepMinSalary, intTrig, hs, hj, pushPred]

theorem stepMinSalary_len (ms : Option String) (b : WhereBuild) :
    (stepMinSalary ms b).validValues.length
      = b.validValues.length + (if intTrig ms then 1 else 0) := by
  cases ms with
  | none => simp [stepMinSalary, intTrig]
  | some s =>
      by_cases hs : s = ""
      · simp [stepMinSalary, intTrig, hs]
      · cases hj : jsToInteger s <;>
          simp [stepMinSalary, intTrig, hs, hj, pushPred]

theorem stepHasEquity_arr (he : Option String) (b : WhereBuild) :
    (stepHasEquity he b).queryStringArr
      = b.queryStringArr ++
        (if equityTrig he then ["equity >= " ++ "$" ++ Nat.repr (b.validValues.length + 1) ++ " "]
         else []) := by
  by_cases h : he = some "true" <;> simp [stepHasEquity, equityTrig, pushPred, h]

theorem stepName_arr (nm : Option String) (b : WhereBuild) :
    (stepName nm b).queryStringArr
      = b.queryStringArr ++
        (if truthyStr nm then ["name ILIKE " ++ "$" ++ Nat.repr (b.validValues.length + 1) ++ " "]
         else []) := by
  cases nm with
  | none => simp [stepName, truthyStr]
  | some s =>
      by_cases hs : s = "" <;> simp [stepName, truthyStr, pushPred, hs]

theorem stepName_len (nm : Option String) (b : WhereBuild) :
    (stepName nm b).validValues.length
      = b.validValues.length + (if truthyStr nm then 1 else 0) := by
  cases nm with
  | none => simp [stepName, truthyStr]
  | some s =>
      by_cases hs : s = "" <;> simp [stepName, truthyStr, pushPred, hs]

theorem stepMinEmployees_arr (ms : Option String) (b : WhereBuild) :
    (stepMinEmployees ms b).queryStringArr
      = b.queryStringArr ++
        (if intTrig ms then
          ["num_employees >= " ++ "$" ++ Nat.repr (b.validValues.length + 1) ++ " "]
         else []) := by
  cases ms with
  | none => simp [stepMinEmployees, intTrig]
  | some s =>
      by_cases hs : s = ""
      · simp [stepMinEmployees, intTrig, hs]
      · cases hj : jsToInteger s <;>
          simp [stepMinEmployees, intTrig, hs, hj, pushPred]

theorem stepMinEmployees_len (ms : Option String) (b : WhereBuild) :
    (stepMinEmployees ms b).validValues.length
      = b.validValues.length + (if intTrig ms then 1 else 0) := by
  cases ms with
  | none => simp [stepMinEmployees, intTrig]
  | some s =>
      by_cases hs : s = ""
      · simp [stepMinEmployees, intTrig, hs]
      · cases hj : jsToInteger s <;>
          simp [stepMinEmployees, intTrig, hs, hj, pushPred]

theorem stepMaxEmployees_arr (ms : Option String) (b : WhereBuild) :
    (stepMaxEmployees ms b).queryStringArr
      = b.queryStringArr ++
        (if intTrig ms then
          ["num_employees <= " ++ "$" ++ Nat.repr (b.validValues.length + 1) ++ " "]
         else []) := by
  cases ms with
  | none => simp [stepMaxEmployees, intTrig]
  | some s =>
      by_cases hs : s = ""
      · simp [stepMaxEmployees, intTrig, hs]
      · cases hj : jsToInteger s <;>
          simp [stepMaxEmployees, intTrig, hs, hj, pushPred]

/-- The job WHERE-fragment list as a function of the three trigger
bits alone (used to show clause text never depends on filter values). -/
def jobPatternArr (tb mb eb : Bool) : List String :=
  (if tb then ["title ILIKE " ++ "$" ++ Nat.repr 1 ++ " "] else []) ++
  (if mb then ["salary >= " ++ "$" ++ Nat.repr ((if tb then 1 else 0) + 1) ++ " "] else []) ++
  (if eb then
    ["equity >= " ++ "$" ++
      Nat.repr ((if tb then 1 else 0) + (if mb then 1 else 0) + 1) ++ " "]
   else [])

theorem jobFilterBuild_arr (d : JobFilter) :
    (jobFilterBuild d).queryStringArr
      = jobPatternArr (truthyStr d.title) (intTrig d.minSalary) (equityTrig d.hasEquity) := by
  have h1 := stepTitle_arr d.title ⟨[], []⟩
  have h1l := stepTitle_len d.title ⟨[], []⟩
  have h2 := stepMinSalary_arr d.minSalary (stepTitle d.title ⟨[], []⟩)
  have h2l := stepMinSalary_len d.minSalary (stepTitle d.title ⟨[], []⟩)
  have h3 := stepHasEquity_arr d.hasEquity
    (stepMinSalary d.minSalary (stepTitle d.title ⟨[], []⟩))
  simp only [jobFilterBuild, h3, h2, h2l, h1, h1l, jobPatternArr]
  simp [List.append_assoc]

/-- The company WHERE-fragment list as a function of the three trigger
bits alone. -/
def companyPatternArr (nb mb xb : Bool) : List String :=
  (if nb then ["name ILIKE " ++ "$" ++ Nat.repr 1 ++ " "] else []) ++
  (if mb then
    ["num_employees >= " ++ "$" ++ Nat.repr ((if nb then 1 else 0) + 1) ++ " "]
   else []) ++
  (if xb then
    ["num_employees <= " ++ "$" ++
      Nat.repr ((if nb then 1 else 0) + (if mb then 1 else 0) + 1) ++ " "]
   else [])

theorem companyFilterBuild_arr (c : CompanyFilter) :
    (companyFilterBuild c).queryStringArr
      = companyPatternArr (truthyStr c.name) (intTrig c.minEmployees) (intTrig c.maxEmployees) := by
  have h1 := stepName_arr c.name ⟨[], []⟩
  have h1l := stepName_len c.name ⟨[], []⟩
  have h2 := stepMinEmployees_arr c.minEmployees (stepName c.name ⟨[], []⟩)
  have h2l := stepMinEmployees_len c.minEmployees (stepName c.name ⟨[], []⟩)
  have h3 := stepMaxEmployees_arr c.maxEmployees
    (stepMinEmployees c.minEmployees (stepName c.name ⟨[], []⟩))
  simp only [companyFilterBuild, h3, h2, h2l, h1, h1l, companyPatternArr]
  simp [List.append_assoc]

/-- Structural invariant of a built WHERE clause: as many fragments as
bound values, and the fragment at position `i` is one of the fixed
column/operator texts followed by the 1-based placeholder `$(i+1)` and
a trailing space — so placeholder indices strictly increase and no
bound value occurs in the fragment text. -/
def FragShape (pres : List String) (b : WhereBuild) : Prop :=
  b.queryStringArr.length = b.validValues.length ∧
  ∀ i : Nat, i < b.queryStringArr.length →
    ∃ pre, pre ∈ pres ∧
      b.queryStringArr[i]? = some (pre ++ "$" ++ Nat.repr (i + 1) ++ " ")

theorem fragShape_empty (pres : List String) : FragShape pres ⟨[], []⟩ :=
  ⟨rfl, fun i h => absurd h (by simp)⟩

theorem fragShape_pushPred {pres : List String} {b : WhereBuild} (hb : FragShape pres b)
    {pre : String} (hpre : pre ∈ pres) (v : Val) : FragShape pres (pushPred b pre v) := by
  obtain ⟨hlen, hget⟩ := hb
  constructor
  · simp [pushPred, hlen]
  · intro i hi
    simp only [pushPred, List.length_append, List.length_cons, List.length_nil] at hi
    rcases Nat.lt_or_ge i b.queryStringArr.length with hlt | hge
    · obtain ⟨p, hp, he⟩ := hget i hlt
      refine ⟨p, hp, ?_⟩
      rw [pushPred]
      simp only [List.getElem?_append_left hlt]
      exact he
    · have hieq : i = b.queryStringArr.length := by omega
      refine ⟨pre, hpre, ?_⟩
      subst hieq
      rw [pushPred]
      simp [List.getElem?_append_right, hlen]

/-- The fixed fragment prefixes of the job filter block. -/
def jobPres : List String := ["title ILIKE ", "salary >= ", "equity >= "]

/-- The fixed fragment prefixes of the company filter block. -/
def companyPres : List String := ["name ILIKE ", "num_employees >= ", "num_employees <= "]

theorem fragShape_stepTitle {b : WhereBuild} (hb : FragShape jobPres b) (t : Option String) :
    FragShape jobPres (stepTitle t b) := by
  cases t with
  | none => exact hb
  | some s =>
      by_cases hs : s = ""
      · simpa [stepTitle, hs] using hb
      · simpa [stepTitle, hs] using fragShape_pushPred hb (by simp [jobPres]) _

theorem fragShape_stepMinSalary {b : WhereBuild} (hb : FragShape jobPres b)
    (ms : Option String) : FragShape jobPres (stepMinSalary ms b) := by
  cases ms with
  | none => exact hb
  | some s =>
      by_cases hs : s = ""
      · simpa [stepMinSalary, hs] using hb
      · cases hj : jsToInteger s
        · simpa [stepMinSalary, hs, hj] using hb
        · simpa [stepMinSalary, hs, hj] using fragShape_pushPred hb (by simp [jobPres]) _

theorem fragShape_stepHasEquity {b : WhereBuild} (hb : FragShape jobPres b)
    (he : Option String) : FragShape jobPres (stepHasEquity he b) := by
  by_cases h : he = some "true"
  · simpa [stepHasEquity, h] using fragShape_pushPred hb (by simp [jobPres]) _
  · simpa [stepHasEquity, h] using hb

theorem fragShape_jobFilterBuild (d : JobFilter) : FragShape jobPres (jobFilterBuild d) :=
  fragShape_stepHasEquity
    (fragShape_stepMinSalary (fragShape_stepTitle (fragShape_empty jobPres) d.title) d.minSalary)
    d.hasEquity

theorem fragShape_stepName {b : WhereBuild} (hb : FragShape companyPres b)
    (nm : Option String) : FragShape companyPres (stepName nm b) := by
  cases nm with
  | none => exact hb
  | some s =>
      by_cases hs : s = ""
      · simpa [stepName, hs] using hb
      · simpa [stepName, hs] using fragShape_pushPred hb (by simp [companyPres]) _

theorem fragShape_stepMinEmployees {b : WhereBuild} (hb : FragShape companyPres b)
    (ms : Option String) : FragShape companyPres (stepMinEmployees ms b) := by
  cases ms with
  | none => exact hb
  | some s =>
      by_cases hs : s = ""
      · simpa [stepMinEmployees, hs] using hb
      · cases hj : jsToInteger s
        · simpa [stepMinEmployees, hs, hj] using hb
        · simpa [stepMinEmployees, hs, hj] using fragShape_pushPred hb (by simp [companyPres]) _

theorem fragShape_stepMaxEmployees {b : WhereBuild} (hb : FragShape companyPres b)
    (ms : Option String) : FragShape companyPres (stepMaxEmployees ms b) := by
  cases ms with
  | none => exact hb
  | some s =>
      by_cases hs : s = ""
      · simpa [stepMaxEmployees, hs] using hb
      · cases hj : jsToInteger s
        · simpa [stepMaxEmployees, hs, hj] using hb
        · simpa [stepMaxEmployees, hs, hj] using fragShape_pushPred hb (by simp [companyPres]) _

theorem fragShape_companyFilterBuild (c : CompanyFilter) :
    FragShape companyPres (companyFilterBuild c) :=
  fragShape_stepMaxEmployees
    (fragShape_stepMinEmployees (fragShape_stepName (fragShape_empty companyPres) c.name)
      c.minEmployees)
    c.maxEmployees

/-!
## Claims about clause structure and the filter composers
-/

/-- C3 as written is refuted by the filter composer: the job filter
clause for `{title: "job1", minSalary: "1"}` contains the bare column
identifiers `title` and `salary` and no double-quote character at all,
so its column identifiers are not double-quoted. -/
theorem c3_counterexample :
    jobJoined ⟨some "job1", some "1", none⟩ = "title ILIKE $1 AND salary >= $2 " ∧
    ¬ '"' ∈ (jobJoined ⟨some "job1", some "1", none⟩).data := by
  exact ⟨rfl, by decide⟩

/-- C3 (amended): placeholders are 1-based and strictly increase in
emission order in both composers and no caller-supplied value appears
in clause text, but only the update composer double-quotes its column
identifiers — the filter composers emit fixed unquoted column/operator
texts.  Concretely: (1) each update fragment is
`"<column>"=$(i+1)`; (2) the update clause is a function of the field
names alone; (3,4) each filter fragment is a fixed prefix from the
per-resource table followed by `$(i+1)` and fragments equal bound
values in number; (5,6) the filter fragment list is a function of the
three trigger bits alone, never of the raw values. -/
theorem c3_clause_structure_amended :
    (∀ (d : Record) (m : FieldMap) (i : Nat) (k : String) (v : Val), d[i]? = some (k, v) →
      (updCols d m)[i]? = some ("\"" ++ jsOrFallback m k ++ "\"=$" ++ Nat.repr (i + 1)))
    ∧ (∀ (d e : Record) (m : FieldMap), d.map Prod.fst = e.map Prod.fst →
        updCols d m = updCols e m)
    ∧ (∀ d : JobFilter, FragShape jobPres (jobFilterBuild d))
    ∧ (∀ c : CompanyFilter, FragShape companyPres (companyFilterBuild c))
    ∧ (∀ d e : JobFilter, truthyStr d.title = truthyStr e.title →
        intTrig d.minSalary = intTrig e.minSalary →
        equityTrig d.hasEquity = equityTrig e.hasEquity →
        (jobFilterBuild d).queryStringArr = (jobFilterBuild e).queryStringArr)
    ∧ (∀ c e : CompanyFilter, truthyStr c.name = truthyStr e.name →
        intTrig c.minEmployees = intTrig e.minEmployees →
        intTrig c.maxEmployees = intTrig e.maxEmployees →
        (companyFilterBuild c).queryStringArr = (companyFilterBuild e).queryStringArr) := by
  refine ⟨fun d m i k v h => updCols_getElem? d m i k v h, ?_, fragShape_jobFilterBuild,
    fragShape_companyFilterBuild, ?_, ?_⟩
  · intro d e m h
    rw [updCols, updCols, h]
  · intro d e h1 h2 h3
    rw [jobFilterBuild_arr, jobFilterBuild_arr, h1, h2, h3]
  · intro c e h1 h2 h3
    rw [companyFilterBuild_arr, companyFilterBuild_arr, h1, h2, h3]

theorem c3_witness :
    (updCols [("firstName", Val.vStr "Bob")] userJsToSql)[0]?
      = some ("\"" ++ jsOrFallback userJsToSql "firstName" ++ "\"=$" ++ Nat.repr 1) ∧
    updCols [("firstName", Val.vStr "Bob")] userJsToSql
      = updCols [("firstName", Val.vNull)] userJsToSql ∧
    FragShape jobPres (jobFilterBuild ⟨some "job1", some "1", none⟩) ∧
    FragShape companyPres (companyFilterBuild ⟨some "name", some "10", some "pdfojs"⟩) ∧
    (jobFilterBuild ⟨some "a", some "nope", none⟩).queryStringArr
      = (jobFilterBuild ⟨some "bb", some "oops", none⟩).queryStringArr ∧
    (companyFilterBuild ⟨some "x", some "7", none⟩).queryStringArr
      = (companyFilterBuild ⟨some "yy", some "88", none⟩).queryStringArr :=
  ⟨c3_clause_structure_amended.1 [("firstName", Val.vStr "Bob")] userJsToSql 0 "firstName"
      (Val.vStr "Bob") (by decide),
   c3_clause_structure_amended.2.1 _ _ userJsToSql (by decide),
   c3_clause_structure_amended.2.2.1 ⟨some "job1", some "1", none⟩,
   c3_clause_structure_amended.2.2.2.1 ⟨some "name", some "10", some "pdfojs"⟩,
   c3_clause_structure_amended.2.2.2.2.1 _ _ (by decide) (by decide) (by decide),
   c3_clause_structure_amended.2.2.2.2.2 _ _ (by decide) (by decide) (by decide)⟩

/-- C5 as written is refuted by a trailing space: the job filter block
pushes every fragment with a trailing blank, so joining with `"AND "`
yields `"title ILIKE $1 AND salary >= $2 "`, not the claimed
`"title ILIKE $1 AND salary >= $2"`. -/
theorem c5_counterexample :
    jobJoined ⟨some "job1", some "1", none⟩ ≠ "title ILIKE $1 AND salary >= $2" ∧
    jobJoined ⟨some "job1", some "1", none⟩
      = "title ILIKE $1 AND salary >= $2" ++ " " := ⟨by decide, rfl⟩

/-- C5 (amended): filter `{title: "job1", minSalary: "1"}` produces, in
declared order, the fragments `title ILIKE $1 ` and `salary >= $2 `
(each with a trailing space, so the AND-joined clause is
`title ILIKE $1 AND salary >= $2 `) with values `["%job1%", 1]`; the
substring predicate triggers on any non-empty title and binds the raw
value surrounded by `%` wildcards, and `"1"` binds as the integer 1. -/
theorem c5_jobFilter_example_amended :
    jobFilterBuild ⟨some "job1", some "1", none⟩
      = ⟨["title ILIKE $1 ", "salary >= $2 "], [.vStr "%job1%", .vNum 1]⟩ ∧
    jobJoined ⟨some "job1", some "1", none⟩ = "title ILIKE $1 AND salary >= $2 " ∧
    jsToInteger "1" = some 1 ∧
    (∀ t : String, t ≠ "" →
      jobFilterBuild ⟨some t, none, none⟩
        = ⟨["title ILIKE " ++ "$" ++ Nat.repr 1 ++ " "], [.vStr ("%" ++ t ++ "%")]⟩) := by
  refine ⟨by decide, rfl, by decide, ?_⟩
  intro t ht
  simp [jobFilterBuild, stepTitle, stepMinSalary, stepHasEquity, pushPred, ht]

theorem c5_witness :
    jobFilterBuild ⟨some "job1", none, none⟩
      = ⟨["title ILIKE " ++ "$" ++ Nat.repr 1 ++ " "], [.vStr "%job1%"]⟩ :=
  c5_jobFilter_example_amended.2.2.2 "job1" (by decide)

/-- C6: a numeric-threshold filter value that does not parse as an
integer is silently dropped — the build is the same as with the entry
absent — for jobs (`minSalary`) and companies (`minEmployees`,
`maxEmployees`); in particular `{minSalary: "nope"}` alone yields zero
predicates, an empty joined clause, and a query string with no WHERE. -/
theorem c6_invalid_threshold_skipped :
    (∀ (d : JobFilter) (s : String), d.minSalary = some s → jsToInteger s = none →
      jobFilterBuild d = jobFilterBuild ⟨d.title, none, d.hasEquity⟩)
    ∧ (∀ (c : CompanyFilter) (s : String), c.minEmployees = some s → jsToInteger s = none →
      companyFilterBuild c = companyFilterBuild ⟨c.name, none, c.maxEmployees⟩)
    ∧ (∀ (c : CompanyFilter) (s : String), c.maxEmployees = some s → jsToInteger s = none →
      companyFilterBuild c = companyFilterBuild ⟨c.name, c.minEmployees, none⟩)
    ∧ jsToInteger "nope" = none
    ∧ jobFilterBuild ⟨none, some "nope", none⟩ = ⟨[], []⟩
    ∧ jobJoined ⟨none, some "nope", none⟩ = ""
    ∧ jobQueryString ⟨none, some "nope", none⟩ = " ORDER BY title" := by
  refine ⟨?_, ?_, ?_, by decide, by decide, rfl, rfl⟩
  · intro d s hms hj
    have hstep : ∀ b, stepMinSalary (some s) b = b := by
      intro b
      by_cases hs : s = "" <;> simp [stepMinSalary, hs, hj]
    have hset : jobFilterBuild d
        = stepHasEquity d.hasEquity (stepMinSalary (some s) (stepTitle d.title ⟨[], []⟩)) := by
      rw [jobFilterBuild, hms]
    rw [hset, hstep]
    rfl
  · intro c s hms hj
    have hstep : ∀ b, stepMinEmployees (some s) b = b := by
      intro b
      by_cases hs : s = "" <;> simp [stepMinEmployees, hs, hj]
    have hset : companyFilterBuild c
        = stepMaxEmployees c.maxEmployees (stepMinEmployees (some s) (stepName c.name ⟨[], []⟩)) := by
      rw [companyFilterBuild, hms]
    rw [hset, hstep]
    rfl
  · intro c s hms hj
    have hstep : ∀ b, stepMaxEmployees (some s) b = b := by
      intro b
      by_cases hs : s = "" <;> simp [stepMaxEmployees, hs, hj]
    have hset : companyFilterBuild c
        = stepMaxEmployees (some s) (stepMinEmployees c.minEmployees (stepName c.name ⟨[], []⟩)) := by
      rw [companyFilterBuild, hms]
    rw [hset, hstep]
    rfl

theorem c6_witness :
    jobFilterBuild ⟨none, some "nope", none⟩ = jobFilterBuild ⟨none, none, none⟩ ∧
    companyFilterBuild ⟨none, some "nope", none⟩ = companyFilterBuild ⟨none, none, none⟩ ∧
    companyFilterBuild ⟨none, none, some "nope"⟩ = companyFilterBuild ⟨none, none, none⟩ :=
  ⟨c6_invalid_threshold_skipped.1 ⟨none, some "nope", none⟩ "nope" rfl (by decide),
   c6_invalid_threshold_skipped.2.1 ⟨none, some "nope", none⟩ "nope" rfl (by decide),
   c6_invalid_threshold_skipped.2.2.1 ⟨none, none, some "nope"⟩ "nope" rfl (by decide)⟩

/-- C7 as written is refuted by a trailing space: with
`{hasEquity: "true"}` the emitted fragment is `"equity >= $1 "`, not
the claimed `"equity >= $1"`. -/
theorem c7_counterexample :
    (jobFilterBuild ⟨none, none, some "true"⟩).queryStringArr ≠ ["equity >= $1"] ∧
    (jobFilterBuild ⟨none, none, some "true"⟩).queryStringArr = ["equity >= $1 "] := by
  exact ⟨by decide, by decide⟩

/-- C7 (amended): the boolean-flag filter triggers iff the raw
`hasEquity` value is exactly the string `"true"`; when triggered it
appends the fragment `equity >= $n ` (with a trailing space, `n` being
one past the values already bound) binding the fixed number 0, and for
any other value it leaves the build — fragments and values — exactly as
if the entry were absent. -/
theorem c7_hasEquity_amended (d : JobFilter) :
    (d.hasEquity = some "true" →
      (jobFilterBuild d).queryStringArr
        = (jobFilterBuild ⟨d.title, d.minSalary, none⟩).queryStringArr ++
          ["equity >= " ++ "$" ++
            Nat.repr ((jobFilterBuild ⟨d.title, d.minSalary, none⟩).validValues.length + 1) ++
            " "] ∧
      (jobFilterBuild d).validValues
        = (jobFilterBuild ⟨d.title, d.minSalary, none⟩).validValues ++ [Val.vNum 0])
    ∧ (d.hasEquity ≠ some "true" → jobFilterBuild d = jobFilterBuild ⟨d.title, d.minSalary, none⟩) := by
  have hbase : jobFilterBuild ⟨d.title, d.minSalary, none⟩
      = stepMinSalary d.minSalary (stepTitle d.title ⟨[], []⟩) := rfl
  constructor
  · intro h
    have hpush : jobFilterBuild d
        = pushPred (stepMinSalary d.minSalary (stepTitle d.title ⟨[], []⟩)) "equity >= "
            (Val.vNum 0) := by
      rw [jobFilterBuild, h]
      simp [stepHasEquity]
    rw [hpush, hbase]
    simp [pushPred]
  · intro h
    rw [jobFilterBuild, hbase, stepHasEquity, if_neg h]

theorem c7_witness :
    ((jobFilterBuild ⟨none, none, some "true"⟩).queryStringArr
        = (jobFilterBuild ⟨none, none, none⟩).queryStringArr ++
          ["equity >= " ++ "$" ++
            Nat.repr ((jobFilterBuild ⟨none, none, none⟩).validValues.length + 1) ++ " "] ∧
      (jobFilterBuild ⟨none, none, some "true"⟩).validValues
        = (jobFilterBuild ⟨none, none, none⟩).validValues ++ [Val.vNum 0]) ∧
    jobFilterBuild ⟨none, none, some "false"⟩ = jobFilterBuild ⟨none, none, none⟩ :=
  ⟨(c7_hasEquity_amended ⟨none, none, some "true"⟩).1 rfl,
   (c7_hasEquity_amended ⟨none, none, some "false"⟩).2 (by decide)⟩

/-- C8: each update operation hands the parameterized execution the N
dynamic update values in record order followed by the row key as the
last element, and the WHERE clause closes with placeholder `$(N+1)`,
one past the count of dynamic values. -/
theorem c8_update_suffix_key :
    (∀ (username : String) (d : Record), d ≠ [] →
      ∃ sc, sqlForPartialUpdate d userJsToSql = .ok sc ∧ sc.values = d.map Prod.snd ∧
        User.updateQuery username d
          = .ok ("UPDATE users \n                      SET " ++ sc.setCols ++
                 " \n                      WHERE username = " ++
                 ("$" ++ Nat.repr (d.length + 1)) ++
                 " \n                      RETURNING username,\n                                first_name AS \"firstName\",\n                                last_name AS \"lastName\",\n                                email,\n                                is_admin AS \"isAdmin\"",
                 d.map Prod.snd ++ [Val.vStr username]))
    ∧ (∀ (id : Int) (d : Record), d ≠ [] →
      ∃ sc, sqlForPartialUpdate d jobJsToSql = .ok sc ∧ sc.values = d.map Prod.snd ∧
        Job.updateQuery id d
          = .ok ("UPDATE jobs \n                      SET " ++ sc.setCols ++
                 " \n                      WHERE id = " ++
                 ("$" ++ Nat.repr (d.length + 1)) ++
                 " \n                      RETURNING id,\n                                title, \n                                salary, \n                                equity, \n                                company_handle AS \"companyHandle\"",
                 d.map Prod.snd ++ [Val.vNum id]))
    ∧ (∀ (handle : String) (d : Record), d ≠ [] →
      ∃ sc, sqlForPartialUpdate d companyJsToSql = .ok sc ∧ sc.values = d.map Prod.snd ∧
        Company.updateQuery handle d
          = .ok ("UPDATE companies \n                      SET " ++ sc.setCols ++
                 " \n                      WHERE handle = " ++
                 ("$" ++ Nat.repr (d.length + 1)) ++
                 " \n                      RETURNING handle, \n                                name, \n                                description, \n                                num_employees AS \"numEmployees\", \n                                logo_url AS \"logoUrl\"",
                 d.map Prod.snd ++ [Val.vStr handle])) := by
  refine ⟨?_, ?_, ?_⟩
  · intro username d h
    have hok := sqlForPartialUpdate_ok d userJsToSql h
    refine ⟨_, hok, rfl, ?_⟩
    rw [User.updateQuery, hok]
    simp [List.length_map]
  · intro id d h
    have hok := sqlForPartialUpdate_ok d jobJsToSql h
    refine ⟨_, hok, rfl, ?_⟩
    rw [Job.updateQuery, hok]
    simp [List.length_map]
  · intro handle d h
    have hok := sqlForPartialUpdate_ok d companyJsToSql h
    refine ⟨_, hok, rfl, ?_⟩
    rw [Company.updateQuery, hok]
    simp [List.length_map]

theorem c8_witness :
    (∃ sc, sqlForPartialUpdate [("firstName", Val.vStr "Bob")] userJsToSql = .ok sc ∧
      sc.values = ([("firstName", Val.vStr "Bob")] : Record).map Prod.snd ∧
      User.updateQuery "u1" [("firstName", Val.vStr "Bob")]
        = .ok ("UPDATE users \n                      SET " ++ sc.setCols ++
               " \n                      WHERE username = " ++ ("$" ++ Nat.repr 2) ++
               " \n                      RETURNING username,\n                                first_name AS \"firstName\",\n                                last_name AS \"lastName\",\n                                email,\n                                is_admin AS \"isAdmin\"",
               ([("firstName", Val.vStr "Bob")] : Record).map Prod.snd ++ [Val.vStr "u1"])) ∧
    (∃ sc, sqlForPartialUpdate [("title", Val.vStr "new")] jobJsToSql = .ok sc ∧
      sc.values = ([("title", Val.vStr "new")] : Record).map Prod.snd ∧
      Job.updateQuery 7 [("title", Val.vStr "new")]
        = .ok ("UPDATE jobs \n                      SET " ++ sc.setCols ++
               " \n                      WHERE id = " ++ ("$" ++ Nat.repr 2) ++
               " \n                      RETURNING id,\n                                title, \n                                salary, \n                                equity, \n                                company_handle AS \"companyHandle\"",
               ([("title", Val.vStr "new")] : Record).map Prod.snd ++ [Val.vNum 7])) ∧
    (∃ sc, sqlForPartialUpdate [("name", Val.vStr "n")] companyJsToSql = .ok sc ∧
      sc.values = ([("name", Val.vStr "n")] : Record).map Prod.snd ∧
      Company.updateQuery "c1" [("name", Val.vStr "n")]
        = .ok ("UPDATE companies \n                      SET " ++ sc.setCols ++
               " \n                      WHERE handle = " ++ ("$" ++ Nat.repr 2) ++
               " \n                      RETURNING handle, \n                                name, \n                                description, \n                                num_employees AS \"numEmployees\", \n                                logo_url AS \"logoUrl\"",
               ([("name", Val.vStr "n")] : Record).map Prod.snd ++ [Val.vStr "c1"])) :=
  ⟨c8_update_suffix_key.1 "u1" [("firstName", Val.vStr "Bob")] (by decide),
   c8_update_suffix_key.2.1 7 [("title", Val.vStr "new")] (by decide),
   c8_update_suffix_key.2.2 "c1" [("name", Val.vStr "n")] (by decide)⟩

/-- C10: `Job.findAll` without a filter argument returns the query's
rows unconditionally — an empty list comes back without error — while
with any filter object it throws `NotFoundError` exactly when the
(possibly unfiltered) query returns zero rows. -/
theorem c10_findAll_asymmetry (db : Db) (d : JobFilter) :
    Job.findAll db none = .ok (db (jobBaseQuery ++ "ORDER BY title") []) ∧
    (db (jobBaseQuery ++ jobQueryString d) (jobFilterBuild d).validValues = [] →
      Job.findAll db (some d) = .error (.notFound "No jobs found matching [object Object]")) ∧
    (∀ rows : List Row,
      db (jobBaseQuery ++ jobQueryString d) (jobFilterBuild d).validValues = rows → rows ≠ [] →
      Job.findAll db (some d) = .ok rows) := by
  refine ⟨rfl, ?_, ?_⟩
  · intro h
    simp [Job.findAll, h]
  · intro rows h hne
    rw [Job.findAll, h]
    simp [List.length_eq_zero, hne]

theorem c10_witness :
    Job.findAll (fun _ _ => []) none = .ok [] ∧
    Job.findAll (fun _ _ => []) (some ⟨none, some "nope", none⟩)
      = .error (.notFound "No jobs found matching [object Object]") ∧
    Job.findAll (fun _ _ => [[("id", Val.vNum 1)]]) (some ⟨none, some "nope", none⟩)
      = .ok [[("id", Val.vNum 1)]] :=
  ⟨(c10_findAll_asymmetry (fun _ _ => []) ⟨none, some "nope", none⟩).1,
   (c10_findAll_asymmetry (fun _ _ => []) ⟨none, some "nope", none⟩).2.1 rfl,
   (c10_findAll_asymmetry (fun _ _ => [[("id", Val.vNum 1)]]) ⟨none, some "nope", none⟩).2.2
     [[("id", Val.vNum 1)]] rfl (by decide)⟩
